import Mathlib

/-!
Verification of the matching-and-muxing pipeline of `run.py`.

The Python source is shallowly embedded. Pure helpers become Lean
functions on `String` and `List String`. The effectful embed functions
(`embed_lyrics_mp3`, `embed_lyrics_flac`) and the per-file body of
`main` become functions of an explicit environment describing the
outcome of each external effect (temp-file write, ffmpeg invocation,
the file-replacement steps), returning a record of the observable
outcome (return value, whether the transient lyric file still exists,
the fate of the original audio file, and the command handed to ffmpeg).
-/

namespace MusicIT

/-- Python `s.startswith(pre)`: literal code-point prefix test. -/
def pyStartsWith (s pre : String) : Bool :=
  List.isPrefixOf pre.data s.data

/-- Python `s.endswith(suf)` for a single suffix. -/
def pyEndsWith (s suf : String) : Bool :=
  List.isSuffixOf suf.data s.data

/-- Python `s.lower()` (ASCII case folding, which is all this program needs). -/
def pyLower (s : String) : String :=
  ⟨s.data.map Char.toLower⟩

/-- Stem/extension split of a single path component, mirroring
`os.path.splitext` on names without directory separators: the extension
starts at the last dot, except that a name whose characters before that
last dot are all dots (e.g. `.bashrc`, `..x`) has no extension. -/
def splitExtChars (cs : List Char) : List Char × List Char :=
  let rev := cs.reverse
  let extRev := rev.takeWhile (fun c => c ≠ '.')
  match rev.dropWhile (fun c => c ≠ '.') with
  | [] => (cs, [])
  | _ :: stemRev =>
    if stemRev.reverse.all (fun c => c = '.') then (cs, [])
    else (stemRev.reverse, '.' :: extRev.reverse)

/-- Stem part of `os.path.splitext`. -/
def splitextStem (s : String) : String := ⟨(splitExtChars s.data).1⟩

/-- Extension part of `os.path.splitext`. -/
def splitextExt (s : String) : String := ⟨(splitExtChars s.data).2⟩

/-- `find_lyrics` from run.py: the first candidate lyric filename that
starts with the song's basename (without extension). -/
def find_lyrics (songName : String) (lyricsFiles : List String) : Option String :=
  let baseName := splitextStem songName
  lyricsFiles.find? (fun f => pyStartsWith f baseName)

/-- Lyric-candidate filter used by `find_lyrics_in_dir` and `main`:
`f.lower().endswith('.lrc')`. -/
def isLrcFile (f : String) : Bool := pyEndsWith (pyLower f) ".lrc"

/-- `find_lyrics_in_dir` from run.py, over the directory listing.  The
source returns `os.path.join(lyrics_dir, f)`; the model returns the
matched filename itself (the directory component is fixed context). -/
def find_lyrics_in_dir (songName : String) (dirListing : List String) : Option String :=
  let baseName := splitextStem songName
  (dirListing.filter isLrcFile).find? (fun f => pyStartsWith f baseName)

/-- Image-extension allow-list from `find_cover_in_dir`. -/
def image_extensions : List String := [".jpg", ".jpeg", ".png", ".bmp", ".gif"]

/-- Cover-candidate filter: `f.lower().endswith(image_extensions)`. -/
def isImageFile (f : String) : Bool :=
  image_extensions.any (fun e => pyEndsWith (pyLower f) e)

/-- Three-way cover matching rule from run.py line 50:
`file_base == base_name or base_name.startswith(file_base) or
file_base.startswith(base_name)`. -/
def coverNameMatches (baseName coverFile : String) : Bool :=
  let fileBase := splitextStem coverFile
  decide (fileBase = baseName) || pyStartsWith baseName fileBase
    || pyStartsWith fileBase baseName

/-- `find_cover_in_dir` from run.py, over the directory listing.  The
source returns `os.path.join(cover_dir, f)`; the model returns the
matched filename itself. -/
def find_cover_in_dir (songName : String) (dirListing : List String) : Option String :=
  let baseName := splitextStem songName
  (dirListing.filter isImageFile).find? (fun f => coverNameMatches baseName f)

/-- Outcome of invoking the external tool as a subprocess:
`ffmpeg` absent from the path, or a completed run with an exit code. -/
inductive ToolRun where
  | notFound
  | completed (returncode : Int)
  deriving DecidableEq

/-- Environment for one `ffmpeg -encoders` probe: whether
`subprocess.run` raises, and otherwise the exit code and captured
standard output of the completed process. -/
structure ProbeEnv where
  raises : Bool
  returncode : Int
  stdoutText : String

/-- Containment of `pat` in `s` as contiguous character subsequence
(Python `pat in s`). -/
def containsSub : List Char → List Char → Bool
  | [], pat => pat.isEmpty
  | c :: t, pat => List.isPrefixOf pat (c :: t) || containsSub t pat

/-- Python `'nvenc' in result.stdout.lower()`. -/
def containsNvenc (s : String) : Bool :=
  containsSub (pyLower s).data "nvenc".data

/-- `check_gpu_support` from run.py: on any exception returns `false`;
on a completed run returns whether the captured stdout contains
`nvenc` case-insensitively.  Note the source never inspects
`result.returncode`. -/
def check_gpu_support (env : ProbeEnv) : Bool :=
  if env.raises then false else containsNvenc env.stdoutText

/-- Acceleration condition evaluated inside the MP3 plan branches:
`use_gpu and check_gpu_support()`, with the probe's would-be result made
an explicit input. -/
def accel (useGpu gpuProbe : Bool) : Bool := useGpu && gpuProbe

/-- Stream-mapping / codec-copy arguments of the MP3 plan, by the
three-way branch on lyrics/cover presence and the acceleration
condition (run.py lines 131-185). -/
def mp3MapArgs (skipLyrics hasCover acc : Bool) : List String :=
  if !skipLyrics && hasCover then
    if acc then
      ["-map", "0:a", "-map", "1", "-map", "2", "-c:a", "copy", "-c:s", "copy",
       "-disposition:1", "lyrics", "-disposition:2", "attached_pic"]
    else
      ["-map", "0:a", "-map", "1", "-map", "2", "-c", "copy",
       "-disposition:1", "lyrics", "-disposition:2", "attached_pic"]
  else if !skipLyrics then
    if acc then
      ["-map", "0:a", "-map", "1", "-c:a", "copy", "-c:s", "copy",
       "-disposition:1", "lyrics"]
    else
      ["-map", "0", "-map", "1", "-c", "copy", "-disposition:1", "lyrics"]
  else if hasCover then
    if acc then
      ["-map", "0:a", "-map", "1", "-c:a", "copy", "-c:v", "copy",
       "-disposition:1", "attached_pic"]
    else
      ["-map", "0", "-map", "1", "-c", "copy", "-disposition:1", "attached_pic"]
  else []

/-- Staged output path of the MP3 plan:
`os.path.splitext(audio_file)[0] + ".temp" + ext`. -/
def mp3OutputFile (audioFile : String) : String :=
  splitextStem audioFile ++ ".temp" ++ splitextExt audioFile

/-- Full ffmpeg argument list built by `embed_lyrics_mp3`
(run.py lines 117-188). -/
def mp3Cmd (audioFile tempLrcPath : String) (coverFile : Option String)
    (useGpu gpuProbe skipLyrics : Bool) : List String :=
  ["ffmpeg", "-y", "-i", audioFile]
  ++ (if !skipLyrics then ["-i", tempLrcPath] else [])
  ++ (match coverFile with
      | some c => ["-i", c]
      | none => [])
  ++ mp3MapArgs skipLyrics coverFile.isSome (accel useGpu gpuProbe)
  ++ ["-loglevel", "quiet", mp3OutputFile audioFile]

/-- Staged output path of the FLAC plan: the audio file's basename
inside the fresh `temp_lyrics_dir` subdirectory next to the source. -/
def flacOutputFile (audioFile : String) : String :=
  "temp_lyrics_dir/" ++ audioFile

/-- Full ffmpeg argument list built by `embed_lyrics_flac`
(run.py lines 243-273).  `useGpu` is a declared parameter of the source
function but is never consulted. -/
def flacCmd (audioFile : String) (lyricsText : String) (coverFile : Option String)
    (useGpu skipLyrics : Bool) : List String :=
  ["ffmpeg", "-y", "-i", audioFile]
  ++ (match coverFile with
      | some c => ["-i", c]
      | none => [])
  ++ ["-c", "copy"]
  ++ (if !skipLyrics then ["-metadata", "lyrics=" ++ lyricsText] else [])
  ++ (match coverFile with
      | some _ => ["-metadata:s:v", "title=\"Album cover\"",
                   "-metadata:s:v", "comment=\"Cover (front)\""]
      | none => [])
  ++ ["-loglevel", "quiet", flacOutputFile audioFile]

/-- Environment for one embed call: whether opening the temp lyric file
for writing raises, the outcome of the ffmpeg subprocess, whether the
expected staged output exists afterwards, and whether the two
file-replacement steps (`os.remove` of the original; `os.rename` /
`shutil.move` of the staged output) raise. -/
structure EmbedEnv where
  openTempRaises : Bool
  tool : ToolRun
  outputExists : Bool
  removeOrigRaises : Bool
  renameRaises : Bool
  deriving DecidableEq

/-- Fate of the original audio file when an embed call returns. -/
inductive OrigState where
  | untouched
  | deleted
  | replaced
  deriving DecidableEq

/-- Observable outcome of one embed call: the returned boolean, whether
the transient lyric file still exists, the fate of the original audio
file, and the ffmpeg command that was invoked (if any). -/
structure EmbedResult where
  ok : Bool
  tempLrcExists : Bool
  orig : OrigState
  cmdRun : Option (List String)
  deriving DecidableEq

/-- `embed_lyrics_mp3` from run.py (lines 99-220), as a function of its
inputs and the effect environment.  `lyricsText = none` models the
Python value `None`: the source then evaluates `f.write(None)`, which
raises `TypeError` after `open` has created the (empty) temp file; the
generic exception handler removes it.  A raising `open` is modelled as
failing before the temp file exists.  Note the `returncode != 0`,
missing-output and `FileNotFoundError` exits return without touching
the temp lyric file. -/
def embed_lyrics_mp3 (audioFile : String) (lyricsText : Option String)
    (tempLrcPath : String) (coverFile : Option String)
    (useGpu gpuProbe skipLyrics : Bool) (env : EmbedEnv) : EmbedResult :=
  if skipLyrics && coverFile.isNone then
    { ok := false, tempLrcExists := false, orig := .untouched, cmdRun := none }
  else if !skipLyrics && env.openTempRaises then
    { ok := false, tempLrcExists := false, orig := .untouched, cmdRun := none }
  else if !skipLyrics && lyricsText.isNone then
    { ok := false, tempLrcExists := false, orig := .untouched, cmdRun := none }
  else
    let tempCreated := !skipLyrics
    let cmd := mp3Cmd audioFile tempLrcPath coverFile useGpu gpuProbe skipLyrics
    match env.tool with
    | .notFound =>
      { ok := false, tempLrcExists := tempCreated, orig := .untouched, cmdRun := some cmd }
    | .completed rc =>
      if rc = 0 then
        if !env.outputExists then
          { ok := false, tempLrcExists := tempCreated, orig := .untouched, cmdRun := some cmd }
        else if env.removeOrigRaises then
          { ok := false, tempLrcExists := false, orig := .untouched, cmdRun := some cmd }
        else if env.renameRaises then
          { ok := false, tempLrcExists := false, orig := .deleted, cmdRun := some cmd }
        else
          { ok := true, tempLrcExists := false, orig := .replaced, cmdRun := some cmd }
      else
        { ok := false, tempLrcExists := tempCreated, orig := .untouched, cmdRun := some cmd }

/-- `embed_lyrics_flac` from run.py (lines 222-304).  The whole body sits
under `try ... except Exception ... finally`, and the `finally` block
removes the temp lyric file whenever it exists, so every exit path
(including tool-not-found, which here falls to the generic `except`)
leaves no temp lyric file.  The original is replaced with
`shutil.move`, with no prior delete, so a raising move leaves it
untouched. -/
def embed_lyrics_flac (audioFile : String) (lyricsText : Option String)
    (tempLrcPath : String) (coverFile : Option String)
    (useGpu skipLyrics : Bool) (env : EmbedEnv) : EmbedResult :=
  if skipLyrics && coverFile.isNone then
    { ok := false, tempLrcExists := false, orig := .untouched, cmdRun := none }
  else if !skipLyrics && env.openTempRaises then
    { ok := false, tempLrcExists := false, orig := .untouched, cmdRun := none }
  else if !skipLyrics && lyricsText.isNone then
    { ok := false, tempLrcExists := false, orig := .untouched, cmdRun := none }
  else
    let cmd := flacCmd audioFile (lyricsText.getD "") coverFile useGpu skipLyrics
    match env.tool with
    | .notFound =>
      { ok := false, tempLrcExists := false, orig := .untouched, cmdRun := some cmd }
    | .completed rc =>
      if rc = 0 then
        if !env.outputExists then
          { ok := false, tempLrcExists := false, orig := .untouched, cmdRun := some cmd }
        else if env.renameRaises then
          { ok := false, tempLrcExists := false, orig := .untouched, cmdRun := some cmd }
        else
          { ok := true, tempLrcExists := false, orig := .replaced, cmdRun := some cmd }
      else
        { ok := false, tempLrcExists := false, orig := .untouched, cmdRun := some cmd }

/-- Runs in which `embed_lyrics_mp3` fails after the temp lyric file has
been written but before any cleanup: tool not found, non-zero exit, or
missing output artifact. -/
def toolFailEarly (env : EmbedEnv) : Bool :=
  match env.tool with
  | .notFound => true
  | .completed rc => if rc = 0 then !env.outputExists else true

/-- Python falsiness of an optional string: `not lyrics_text` is true
for both `None` and the empty string. -/
def pyStrFalsy : Option String → Bool
  | none => true
  | some s => decide (s = "")

/-- Per-file inputs of the `main` loop body (run.py lines 374-442):
the global flags, whether the lyrics directory resolved to the song
directory, whether a cover directory is configured and exists, the
lyric match (an existing `full_lrc_path`, when found), the result
`read_lrc_file` would return for it, the cover match, and the audio
container dispatch. -/
structure FileParams where
  skipLyrics : Bool
  keepLyrics : Bool
  lyricsDirIsSongDir : Bool
  hasCover : Bool
  lyricMatch : Option String
  readResult : Option String
  coverMatch : Option String
  isMp3 : Bool
  deriving DecidableEq

/-- Observable outcome of one iteration of the `main` loop: whether an
embed function was invoked, the lyric text handed to it, the ffmpeg
command it ran (if any), the returned success, the increment of
`processed_count`, and whether deletion of the original lyric file was
attempted and succeeded. -/
structure FileOutcome where
  embedCalled : Bool
  passedLyricsText : Option String
  cmdRun : Option (List String)
  success : Bool
  processedInc : Nat
  deleteAttempted : Bool
  deleteSucceeded : Bool
  deriving DecidableEq

/-- Lyric text resolved by the loop body: `read_lrc_file`'s result when
lyrics are wanted and a (existing) match was found, else Python `None`
(run.py lines 376-395). -/
def lyricsTextOf (p : FileParams) : Option String :=
  if !p.skipLyrics && p.lyricMatch.isSome then p.readResult else none

/-- Cover file resolved by the loop body: the cover match when a cover
directory is configured (run.py lines 405-407). -/
def coverFileOf (p : FileParams) : Option String :=
  if p.hasCover then p.coverMatch else none

/-- The three `continue` decisions of the loop body: unreadable or
missing lyrics with no cover configured (lines 396-402), skip-lyrics
with no cover match (lines 408-410), and nothing at all to embed
(line 413). -/
def shouldSkip (p : FileParams) : Bool :=
  (if !p.skipLyrics then
    (if p.lyricMatch.isSome then pyStrFalsy p.readResult && !p.hasCover else !p.hasCover)
   else false)
  || (p.hasCover && (coverFileOf p).isNone && p.skipLyrics)
  || ((p.skipLyrics || pyStrFalsy (lyricsTextOf p)) && (coverFileOf p).isNone)

/-- Container dispatch of the loop body (run.py lines 421-425). -/
def embedStep (audioPath tempLrcPath : String) (p : FileParams)
    (useGpu gpuProbe : Bool) (env : EmbedEnv) : EmbedResult :=
  if p.isMp3 then
    embed_lyrics_mp3 audioPath (lyricsTextOf p) tempLrcPath (coverFileOf p)
      useGpu gpuProbe p.skipLyrics env
  else
    embed_lyrics_flac audioPath (lyricsTextOf p) tempLrcPath (coverFileOf p)
      useGpu p.skipLyrics env

/-- One iteration of the `main` loop (run.py lines 374-442): resolve the
lyric text, apply the three skip decisions, dispatch on the container,
and do the post-success lyric-file housekeeping.  `deleteLyricRaises`
says whether `os.remove(full_lrc_path)` would raise; the handler
swallows that exception after `processed_count` was already
incremented. -/
def process_one (audioPath tempLrcPath : String) (p : FileParams)
    (useGpu gpuProbe : Bool) (env : EmbedEnv) (deleteLyricRaises : Bool) : FileOutcome :=
  if shouldSkip p then
    { embedCalled := false, passedLyricsText := none, cmdRun := none, success := false,
      processedInc := 0, deleteAttempted := false, deleteSucceeded := false }
  else if (embedStep audioPath tempLrcPath p useGpu gpuProbe env).ok then
    { embedCalled := true, passedLyricsText := lyricsTextOf p,
      cmdRun := (embedStep audioPath tempLrcPath p useGpu gpuProbe env).cmdRun,
      success := true, processedInc := 1,
      deleteAttempted :=
        !p.skipLyrics && !p.keepLyrics && p.lyricsDirIsSongDir && p.lyricMatch.isSome,
      deleteSucceeded :=
        (!p.skipLyrics && !p.keepLyrics && p.lyricsDirIsSongDir && p.lyricMatch.isSome)
          && !deleteLyricRaises }
  else
    { embedCalled := true, passedLyricsText := lyricsTextOf p,
      cmdRun := (embedStep audioPath tempLrcPath p useGpu gpuProbe env).cmdRun,
      success := false, processedInc := 0, deleteAttempted := false,
      deleteSucceeded := false }

/-- An embed function is invoked exactly when none of the skip decisions
fires. -/
theorem embedCalled_eq (a t : String) (p : FileParams) (u g : Bool)
    (env : EmbedEnv) (d : Bool) :
    (process_one a t p u g env d).embedCalled = !(shouldSkip p) := by
  unfold process_one
  cases hs : shouldSkip p
  · simp only [hs, Bool.false_eq_true, if_false, Bool.not_false]
    split <;> rfl
  · simp [hs]

/-- When an embed function is invoked, it receives the resolved lyric
text. -/
theorem passedLyrics_eq (a t : String) (p : FileParams) (u g : Bool)
    (env : EmbedEnv) (d : Bool) :
    (process_one a t p u g env d).embedCalled = true →
      (process_one a t p u g env d).passedLyricsText = lyricsTextOf p := by
  unfold process_one
  cases hs : shouldSkip p
  · simp only [hs, Bool.false_eq_true, if_false]
    split <;> intro _ <;> rfl
  · simp [hs]

/-- First-match characterization of `List.find?`, used by the two
matcher claims. -/
theorem find_first_aux {α : Type} (p : α → Bool) :
    ∀ l : List α, (∃ a ∈ l, p a = true) →
      ∃ l1 a l2, l = l1 ++ a :: l2 ∧ p a = true ∧ (∀ b ∈ l1, p b = false) ∧
        l.find? p = some a := by
  intro l
  induction l with
  | nil => rintro ⟨a, ha, _⟩; exact absurd ha (List.not_mem_nil a)
  | cons hd tl ih =>
    intro hex
    by_cases hp : p hd = true
    · exact ⟨[], hd, tl, rfl, hp, by intro b hb; exact absurd hb (List.not_mem_nil b),
        by simp [List.find?, hp]⟩
    · have hfb : p hd = false := by
        cases h : p hd
        · rfl
        · exact absurd h hp
      have hex' : ∃ a ∈ tl, p a = true := by
        rcases hex with ⟨a, ha, hpa⟩
        rcases List.mem_cons.mp ha with h1 | h2
        · subst h1; exact absurd hpa hp
        · exact ⟨a, h2, hpa⟩
      rcases ih hex' with ⟨l1, a, l2, heq, hpa, hall, hfind⟩
      refine ⟨hd :: l1, a, l2, by rw [heq, List.cons_append], hpa, ?_, ?_⟩
      · intro b hb
        rcases List.mem_cons.mp hb with h1 | h2
        · subst h1; exact hfb
        · exact hall b h2
      · simp [List.find?, hfb, hfind]

/-- Filtering by a predicate that already holds of every element is the
identity. -/
theorem filter_all_true {α : Type} (q : α → Bool) :
    ∀ l : List α, (∀ a ∈ l, q a = true) → l.filter q = l := by
  intro l
  induction l with
  | nil => intro _; rfl
  | cons hd tl ih =>
    intro h
    have hhd : q hd = true := h hd (List.mem_cons_self hd tl)
    have htl : ∀ a ∈ tl, q a = true := fun a ha => h a (List.mem_cons_of_mem hd ha)
    simp [List.filter, hhd, ih htl]

/-- Claim C5: for every target basename and candidate list, `find_lyrics`
returns the first candidate (in list order) whose filename starts with
the song's basename as a literal prefix, and returns `none` when no
candidate has that prefix. -/
theorem c5_find_lyrics_first_match (songName : String) (files : List String) :
    ((∃ f ∈ files, pyStartsWith f (splitextStem songName) = true) →
      ∃ l1 f l2, files = l1 ++ f :: l2 ∧ pyStartsWith f (splitextStem songName) = true ∧
        (∀ g ∈ l1, pyStartsWith g (splitextStem songName) = false) ∧
        find_lyrics songName files = some f)
    ∧ ((∀ f ∈ files, pyStartsWith f (splitextStem songName) = false) →
      find_lyrics songName files = none) := by
  constructor
  · intro hex
    rcases find_first_aux (fun f => pyStartsWith f (splitextStem songName)) files hex with
      ⟨l1, f, l2, heq, hpf, hall, hfind⟩
    exact ⟨l1, f, l2, heq, hpf, hall, hfind⟩
  · intro hall
    show files.find? _ = none
    apply List.find?_eq_none.mpr
    intro f hf
    simp [hall f hf]

/-- Witness for C5 at a concrete input. -/
theorem c5_witness :
    ∃ l1 f l2, (["a.lrc", "song.lrc"] : List String) = l1 ++ f :: l2 ∧
      pyStartsWith f (splitextStem "song.mp3") = true ∧
      (∀ g ∈ l1, pyStartsWith g (splitextStem "song.mp3") = false) ∧
      find_lyrics "song.mp3" ["a.lrc", "song.lrc"] = some f :=
  (c5_find_lyrics_first_match "song.mp3" ["a.lrc", "song.lrc"]).1
    ⟨"song.lrc", by decide, by decide⟩

/-- Claim C6: over candidate lists drawn from the image-extension
allow-list, `find_cover_in_dir` returns the first candidate whose
basename-without-extension equals the target basename, is a prefix of
it, or has it as a prefix; and `none` when no candidate satisfies the
three-way rule. -/
theorem c6_find_cover_first_match (songName : String) (files : List String)
    (himg : ∀ f ∈ files, isImageFile f = true) :
    ((∃ f ∈ files, coverNameMatches (splitextStem songName) f = true) →
      ∃ l1 f l2, files = l1 ++ f :: l2 ∧ coverNameMatches (splitextStem songName) f = true ∧
        (∀ g ∈ l1, coverNameMatches (splitextStem songName) g = false) ∧
        find_cover_in_dir songName files = some f)
    ∧ ((∀ f ∈ files, coverNameMatches (splitextStem songName) f = false) →
      find_cover_in_dir songName files = none) := by
  have hfilter : files.filter isImageFile = files := filter_all_true isImageFile files himg
  constructor
  · intro hex
    rcases find_first_aux (fun f => coverNameMatches (splitextStem songName) f) files hex with
      ⟨l1, f, l2, heq, hpf, hall, hfind⟩
    refine ⟨l1, f, l2, heq, hpf, hall, ?_⟩
    show (files.filter isImageFile).find? _ = some f
    rw [hfilter]
    exact hfind
  · intro hall
    show (files.filter isImageFile).find? _ = none
    rw [hfilter]
    apply List.find?_eq_none.mpr
    intro f hf
    simp [hall f hf]

/-- Witness for C6 at a concrete input. -/
theorem c6_witness :
    ∃ l1 f l2, (["other.png", "song (1).jpg"] : List String) = l1 ++ f :: l2 ∧
      coverNameMatches (splitextStem "song.mp3") f = true ∧
      (∀ g ∈ l1, coverNameMatches (splitextStem "song.mp3") g = false) ∧
      find_cover_in_dir "song.mp3" ["other.png", "song (1).jpg"] = some f :=
  (c6_find_cover_first_match "song.mp3" ["other.png", "song (1).jpg"] (by decide)).1
    ⟨"song (1).jpg", by decide, by decide⟩

/-- Counterexample for C7: the source never inspects the exit code of
the `ffmpeg -encoders` probe, so a completed invocation that exits
non-zero but prints `nvenc` on stdout makes `check_gpu_support` return
`true`, where the claim requires `false` on any non-zero exit. -/
theorem c7_counterexample :
    check_gpu_support ⟨false, 1, "V..... h264_nvenc"⟩ = true := by decide

/-- Claim C7 (amended): `check_gpu_support` returns `false` whenever the
probe invocation raises (tool missing or any exception) and never
propagates an error; on a completed invocation it returns whether the
captured stdout contains `nvenc` case-insensitively, independent of the
exit code. -/
theorem c7_amended_probe :
    (∀ rc out, check_gpu_support ⟨true, rc, out⟩ = false)
    ∧ (∀ rc out, check_gpu_support ⟨false, rc, out⟩ = containsNvenc out) :=
  ⟨fun _ _ => rfl, fun _ _ => rfl⟩

/-- Counterexample for C1: with lyrics present (so the transient lyric
file is created) and ffmpeg exiting non-zero, `embed_lyrics_mp3`
returns with the transient lyric file still on disk — the claimed
every-exit-path cleanup fails on the non-zero-exit path (and likewise
on the tool-not-found and missing-output paths). -/
theorem c1_counterexample :
    ((embed_lyrics_mp3 "a.mp3" (some "line1") "temp_1.lrc" none false false false
        ⟨false, ToolRun.completed 1, true, false, false⟩).ok = false)
    ∧ ((embed_lyrics_mp3 "a.mp3" (some "line1") "temp_1.lrc" none false false false
        ⟨false, ToolRun.completed 1, true, false, false⟩).tempLrcExists = true) := by
  decide

/-- Claim C1 (amended): `embed_lyrics_flac` removes the transient lyric
file before returning on every exit path (its cleanup is a `finally`
block); `embed_lyrics_mp3` removes it on the success path and on paths
reaching the generic exception handler, but leaves it behind exactly
when the file was created (lyrics present, write succeeded) and the run
fails with tool-not-found, a non-zero exit, or a missing output
artifact. -/
theorem c1_amended_cleanup :
    (∀ a l t c u s env, (embed_lyrics_flac a l t c u s env).tempLrcExists = false)
    ∧ (∀ a l t c u g s env, (embed_lyrics_mp3 a l t c u g s env).tempLrcExists
        = (!s && !env.openTempRaises && l.isSome && toolFailEarly env)) := by
  constructor
  · intro a l t c u s env
    obtain ⟨o, tool, oe, ro, rn⟩ := env
    cases tool with
    | notFound =>
      cases s <;> cases o <;> cases l <;> cases c <;> simp [embed_lyrics_flac]
    | completed rc =>
      by_cases hrc : rc = 0 <;>
        cases s <;> cases o <;> cases l <;> cases c <;> cases oe <;> cases rn <;>
          simp [embed_lyrics_flac, hrc]
  · intro a l t c u g s env
    obtain ⟨o, tool, oe, ro, rn⟩ := env
    cases tool with
    | notFound =>
      cases s <;> cases o <;> cases l <;> cases c <;>
        simp [embed_lyrics_mp3, toolFailEarly]
    | completed rc =>
      by_cases hrc : rc = 0 <;>
        cases s <;> cases o <;> cases l <;> cases c <;> cases oe <;> cases ro <;> cases rn <;>
          simp [embed_lyrics_mp3, toolFailEarly, hrc]

/-- Claim C3: the mux plan is a pure function of its declared inputs.
With the acceleration input read, as the spec declares it, as
"requested and supported" — the conjunction `use_gpu &&` probe result —
two plan constructions over the same paths with identical
(container, lyrics-presence, cover-presence, accel) inputs produce the
identical ffmpeg argument list; the per-call capability probe
influences the plan only through that conjunction. -/
theorem c3_planner_pure (a t : String) (c : Option String) (lt : String)
    (cv : Option String) (s : Bool) (u1 g1 u2 g2 : Bool)
    (h : accel u1 g1 = accel u2 g2) :
    mp3Cmd a t c u1 g1 s = mp3Cmd a t c u2 g2 s
    ∧ flacCmd a lt cv u1 s = flacCmd a lt cv u2 s := by
  constructor
  · simp only [mp3Cmd, h]
  · rfl

/-- Witness for C3 at a concrete input: requested-but-unsupported equals
unrequested-but-supported, since both give accel = false. -/
theorem c3_witness :
    mp3Cmd "a.mp3" "temp_1.lrc" (some "a.jpg") true false false
      = mp3Cmd "a.mp3" "temp_1.lrc" (some "a.jpg") false true false
    ∧ flacCmd "a.mp3" "line1" (some "a.jpg") true false
      = flacCmd "a.mp3" "line1" (some "a.jpg") false false :=
  c3_planner_pure "a.mp3" "temp_1.lrc" (some "a.jpg") "line1" (some "a.jpg") false
    true false false true (by decide)

/-- Counterexample for C4: with ffmpeg exiting zero and the staged
output present, an exception raised by `os.rename` — after `os.remove`
has already deleted the original — makes `embed_lyrics_mp3` return
failure with the original audio file destroyed, refuting "on any
failure ... the original audio file is left unmodified". -/
theorem c4_counterexample :
    ((embed_lyrics_mp3 "a.mp3" (some "line1") "temp_1.lrc" none false false false
        ⟨false, ToolRun.completed 0, true, false, true⟩).ok = false)
    ∧ ((embed_lyrics_mp3 "a.mp3" (some "line1") "temp_1.lrc" none false false false
        ⟨false, ToolRun.completed 0, true, false, true⟩).orig = OrigState.deleted) := by
  decide

/-- Claim C4 (amended): success always implies a zero exit and an
existing output artifact; conversely, for calls that reach the tool
with something to embed and a writable lyric text, and whose
file-replacement steps do not raise, success holds iff the tool exits
zero and the output exists.  On every failure whose exit precedes the
replacement step (tool not found, non-zero exit, missing output,
temp-write exceptions, a raising `os.remove`) the original audio file
is untouched; only an exception in the MP3 rename step itself can leave
it deleted.  `embed_lyrics_flac`, which replaces via a single
`shutil.move`, leaves the original untouched on every failure. -/
theorem c4_amended_commit :
    (∀ a l t c u g s env, ((embed_lyrics_mp3 a l t c u g s env).ok = true →
        env.tool = ToolRun.completed 0 ∧ env.outputExists = true)
      ∧ ((embed_lyrics_flac a l t c u s env).ok = true →
        env.tool = ToolRun.completed 0 ∧ env.outputExists = true))
    ∧ (∀ a l t c u g s (env : EmbedEnv), (s && c.isNone) = false →
        (!s && l.isNone) = false →
        env.openTempRaises = false → env.removeOrigRaises = false →
        env.renameRaises = false →
        ((embed_lyrics_mp3 a l t c u g s env).ok = true ↔
          env.tool = ToolRun.completed 0 ∧ env.outputExists = true))
    ∧ (∀ a l t c u g s (env : EmbedEnv), env.renameRaises = false →
        (embed_lyrics_mp3 a l t c u g s env).ok = false →
        (embed_lyrics_mp3 a l t c u g s env).orig = OrigState.untouched)
    ∧ (∀ a l t c u s env, (embed_lyrics_flac a l t c u s env).ok = false →
        (embed_lyrics_flac a l t c u s env).orig = OrigState.untouched) := by
  refine ⟨?_, ?_, ?_, ?_⟩
  · intro a l t c u g s env
    obtain ⟨o, tool, oe, ro, rn⟩ := env
    constructor
    · cases tool with
      | notFound =>
        cases s <;> cases o <;> cases l <;> cases c <;> simp [embed_lyrics_mp3]
      | completed rc =>
        by_cases hrc : rc = 0 <;>
          cases s <;> cases o <;> cases l <;> cases c <;> cases oe <;> cases ro <;> cases rn <;>
            simp [embed_lyrics_mp3, hrc]
    · cases tool with
      | notFound =>
        cases s <;> cases o <;> cases l <;> cases c <;> simp [embed_lyrics_flac]
      | completed rc =>
        by_cases hrc : rc = 0 <;>
          cases s <;> cases o <;> cases l <;> cases c <;> cases oe <;> cases rn <;>
            simp [embed_lyrics_flac, hrc]
  · intro a l t c u g s env hc hl
    obtain ⟨o, tool, oe, ro, rn⟩ := env
    intro ho hro hrn
    subst ho; subst hro; subst hrn
    cases tool with
    | notFound =>
      cases s <;> cases l <;> cases c <;> simp_all [embed_lyrics_mp3]
    | completed rc =>
      by_cases hrc : rc = 0 <;>
        cases s <;> cases l <;> cases c <;> cases oe <;>
          simp_all [embed_lyrics_mp3, hrc]
  · intro a l t c u g s env hrn
    obtain ⟨o, tool, oe, ro, rn⟩ := env
    subst hrn
    cases tool with
    | notFound =>
      cases s <;> cases o <;> cases l <;> cases c <;> simp [embed_lyrics_mp3]
    | completed rc =>
      by_cases hrc : rc = 0 <;>
        cases s <;> cases o <;> cases l <;> cases c <;> cases oe <;> cases ro <;>
          simp [embed_lyrics_mp3, hrc]
  · intro a l t c u s env
    obtain ⟨o, tool, oe, ro, rn⟩ := env
    cases tool with
    | notFound =>
      cases s <;> cases o <;> cases l <;> cases c <;> simp [embed_lyrics_flac]
    | completed rc =>
      by_cases hrc : rc = 0 <;>
        cases s <;> cases o <;> cases l <;> cases c <;> cases oe <;> cases rn <;>
          simp [embed_lyrics_flac, hrc]

/-- Witness for C4 (amended) at a concrete input: zero exit, output
present, no raising file operations — the call succeeds. -/
theorem c4_witness :
    (embed_lyrics_mp3 "a.mp3" (some "line1") "temp_1.lrc" none false false false
      ⟨false, ToolRun.completed 0, true, false, false⟩).ok = true :=
  (c4_amended_commit.2.1 "a.mp3" (some "line1") "temp_1.lrc" none false false false
    ⟨false, ToolRun.completed 0, true, false, false⟩
    (by decide) (by decide) rfl rfl rfl).mpr ⟨rfl, rfl⟩

/-- Claim C9: `embed_lyrics_flac` never consults its `use_gpu`
parameter: two runs differing only in that input produce the identical
ffmpeg argument list and the identical observable outcome. -/
theorem c9_flac_gpu_independent (a : String) (l : Option String) (t : String)
    (c : Option String) (lt : String) (s : Bool) (env : EmbedEnv) (u1 u2 : Bool) :
    embed_lyrics_flac a l t c u1 s env = embed_lyrics_flac a l t c u2 s env
    ∧ flacCmd a lt c u1 s = flacCmd a lt c u2 s :=
  ⟨rfl, rfl⟩

/-- Claim C2 evaluated at its failing input: an MP3 with no lyric match,
a configured cover directory with a matching cover, skip-lyrics off,
and an environment in which ffmpeg would exit zero and produce the
output.  The orchestrator does pass the file on cover-only, but
`embed_lyrics_mp3` then executes `f.write(None)` on the absent lyric
text, raises `TypeError`, never reaches ffmpeg, returns `False`, and
the file is not counted as processed — the claimed cover-only success
never happens. -/
theorem c2_failing_eval :
    ((process_one "a.mp3" "temp_1.lrc"
        ⟨false, false, true, true, none, none, some "a.jpg", true⟩
        false false ⟨false, ToolRun.completed 0, true, false, false⟩ false).embedCalled = true)
    ∧ ((process_one "a.mp3" "temp_1.lrc"
        ⟨false, false, true, true, none, none, some "a.jpg", true⟩
        false false ⟨false, ToolRun.completed 0, true, false, false⟩ false).success = false)
    ∧ ((process_one "a.mp3" "temp_1.lrc"
        ⟨false, false, true, true, none, none, some "a.jpg", true⟩
        false false ⟨false, ToolRun.completed 0, true, false, false⟩ false).processedInc = 0)
    ∧ ((process_one "a.mp3" "temp_1.lrc"
        ⟨false, false, true, true, none, none, some "a.jpg", true⟩
        false false ⟨false, ToolRun.completed 0, true, false, false⟩ false).cmdRun = none) := by
  decide

/-- Claim C8: the original lyric file's deletion is attempted only when
the embed succeeded with lyric embedding enabled (so the lyric stream
was in the executed plan), the keep-lyrics option is false, the lyrics
directory is the song directory, and a lyric match existed; and the
processed counter is unaffected by whether that deletion raises. -/
theorem c8_delete_conditions (a t : String) (p : FileParams) (u g : Bool)
    (env : EmbedEnv) (d : Bool) :
    ((process_one a t p u g env d).deleteAttempted = true →
      (process_one a t p u g env d).success = true ∧ p.skipLyrics = false ∧
        p.keepLyrics = false ∧ p.lyricsDirIsSongDir = true ∧ p.lyricMatch.isSome = true)
    ∧ ((process_one a t p u g env true).processedInc
        = (process_one a t p u g env false).processedInc) := by
  constructor
  · intro hdel
    unfold process_one at hdel ⊢
    cases hs : shouldSkip p
    · rw [if_neg (by simp [hs])] at hdel
      rw [if_neg (by simp)]
      cases hok : (embedStep a t p u g env).ok
      · rw [if_neg (by simp [hok])] at hdel
        exact absurd hdel (by simp)
      · rw [if_pos hok] at hdel
        rw [if_pos rfl]
        refine ⟨rfl, ?_⟩
        rw [Bool.and_eq_true, Bool.and_eq_true, Bool.and_eq_true] at hdel
        obtain ⟨⟨⟨h1, h2⟩, h3⟩, h4⟩ := hdel
        refine ⟨?_, ?_, h3, h4⟩
        · cases hsk : p.skipLyrics
          · rfl
          · rw [hsk] at h1; exact absurd h1 (by simp)
        · cases hk : p.keepLyrics
          · rfl
          · rw [hk] at h2; exact absurd h2 (by simp)
    · rw [if_pos hs] at hdel
      exact absurd hdel (by simp)
  · unfold process_one
    cases hs : shouldSkip p
    · cases hok : (embedStep a t p u g env).ok <;> simp
    · simp

/-- Witness for C8 at a concrete input where deletion is attempted. -/
theorem c8_witness :
    (process_one "a.mp3" "temp_1.lrc"
        ⟨false, false, true, false, some "a.lrc", some "line1", none, true⟩
        false false ⟨false, ToolRun.completed 0, true, false, false⟩ false).success = true
    ∧ (false : Bool) = false ∧ (false : Bool) = false ∧ (true : Bool) = true
    ∧ (some "a.lrc" : Option String).isSome = true :=
  (c8_delete_conditions "a.mp3" "temp_1.lrc"
      ⟨false, false, true, false, some "a.lrc", some "line1", none, true⟩
      false false ⟨false, ToolRun.completed 0, true, false, false⟩ false).1 (by decide)

/-- Counterexample for C10: a matched lyric file decoding to the empty
string is not treated like a decode failure once a cover match exists —
the embed is invoked with skip-lyrics off and the empty text, the
executed ffmpeg command still takes the temp lyric file as an input
(so the run is not cover-only), and it succeeds where the actual
decode-failure (`None`) run fails. -/
theorem c10_counterexample :
    ((process_one "a.mp3" "temp_1.lrc"
        ⟨false, true, true, true, some "a.lrc", some "", some "a.jpg", true⟩
        false false ⟨false, ToolRun.completed 0, true, false, false⟩ false).success = true)
    ∧ ((process_one "a.mp3" "temp_1.lrc"
        ⟨false, true, true, true, some "a.lrc", none, some "a.jpg", true⟩
        false false ⟨false, ToolRun.completed 0, true, false, false⟩ false).success = false)
    ∧ ("temp_1.lrc" ∈ ((process_one "a.mp3" "temp_1.lrc"
        ⟨false, true, true, true, some "a.lrc", some "", some "a.jpg", true⟩
        false false ⟨false, ToolRun.completed 0, true, false, false⟩ false).cmdRun.getD [])) := by
  decide

/-- Claim C10 (amended): at the orchestrator's skip decisions an
empty-string decode is treated exactly like a decode failure — whether
an embed function is invoked is identical for `readResult = some ""`
and `readResult = none`, and with no cover available both are skipped;
but when processing proceeds, the embedder receives skip-lyrics off
together with the empty lyric text, so the plan still embeds a lyric
stream rather than running cover-only. -/
theorem c10_amended (a t : String) (p : FileParams) (u g : Bool) (env : EmbedEnv)
    (d : Bool) (hskip : p.skipLyrics = false) (hmatch : p.lyricMatch.isSome = true) :
    ((process_one a t { p with readResult := some "" } u g env d).embedCalled
      = (process_one a t { p with readResult := none } u g env d).embedCalled)
    ∧ ((process_one a t { p with readResult := some "" } u g env d).embedCalled = true →
      (process_one a t { p with readResult := some "" } u g env d).passedLyricsText
        = some "") := by
  have hss : shouldSkip { p with readResult := some "" }
      = shouldSkip { p with readResult := none } := by
    unfold shouldSkip lyricsTextOf coverFileOf
    simp [hskip, hmatch, pyStrFalsy]
  constructor
  · rw [embedCalled_eq a t { p with readResult := some "" } u g env d,
      embedCalled_eq a t { p with readResult := none } u g env d, hss]
  · intro hcall
    rw [passedLyrics_eq a t { p with readResult := some "" } u g env d hcall]
    unfold lyricsTextOf
    simp [hskip, hmatch]

/-- Witness for C10 (amended) at a concrete input. -/
theorem c10_witness :
    ((process_one "a.mp3" "temp_1.lrc"
        ⟨false, true, true, true, some "a.lrc", some "", some "a.jpg", true⟩
        false false ⟨false, ToolRun.completed 0, true, false, false⟩ false).embedCalled
      = (process_one "a.mp3" "temp_1.lrc"
        ⟨false, true, true, true, some "a.lrc", none, some "a.jpg", true⟩
        false false ⟨false, ToolRun.completed 0, true, false, false⟩ false).embedCalled)
    ∧ ((process_one "a.mp3" "temp_1.lrc"
        ⟨false, true, true, true, some "a.lrc", some "", some "a.jpg", true⟩
        false false ⟨false, ToolRun.completed 0, true, false, false⟩ false).embedCalled = true →
      (process_one "a.mp3" "temp_1.lrc"
        ⟨false, true, true, true, some "a.lrc", some "", some "a.jpg", true⟩
        false false ⟨false, ToolRun.completed 0, true, false, false⟩ false).passedLyricsText
        = some "") :=
  c10_amended "a.mp3" "temp_1.lrc"
    ⟨false, true, true, true, some "a.lrc", some "x", some "a.jpg", true⟩
    false false ⟨false, ToolRun.completed 0, true, false, false⟩ false rfl rfl

end MusicIT
